import Mathlib

/-!
Verification of the ruzer driver core (crates/driver): the fixed-layout wire
message and its checksum, the per-command encoders/decoders, DPI stage table
validation, polling-rate handling, lighting-effect encoding, the batched
snapshot read, and color parsing.  Each definition is a shallow embedding of
the corresponding Rust item; machine integers (u8/u16) are modelled as `Nat`
with explicit masking where the source masks.
-/

namespace Ruzer

/-- `RAZER_REPORT_ARGUMENT_SIZE` from common.rs. -/
def RAZER_REPORT_ARGUMENT_SIZE : Nat := 80

/-- `RAZER_REPORT_SIZE = size_of::<RazerMessage>()`: the struct is `repr(C)`
with fields u8, u8, u16, u8, u8, u8, u8, [u8; 80], u8, u8 — the u16 sits at
its natural alignment (offset 2), so the record is 90 bytes with no padding. -/
def RAZER_REPORT_SIZE : Nat := 90

/-- `RAZER_MOUSE_MAX_DPI_STAGES` from common.rs. -/
def RAZER_MOUSE_MAX_DPI_STAGES : Nat := 5

/-- The `RazerMessage` struct from common.rs.  Byte fields are `Nat`s that the
operations keep below 256; `arguments` models the `[u8; 80]` array as a list
(its length-80 invariant is carried as a hypothesis where needed). -/
structure RazerMessage where
  status : Nat
  transaction_id : Nat
  remaining_packets : Nat
  protocol_type : Nat
  data_size : Nat
  command_class : Nat
  command_id : Nat
  arguments : List Nat
  crc : Nat
  reserved : Nat
deriving DecidableEq, Repr

/-- Little-endian byte pair of a u16 field, as laid out in host memory on the
platforms the crate targets (x86-64): low byte first. -/
def u16le (v : Nat) : List Nat := [v &&& 0xFF, (v >>> 8) &&& 0xFF]

/-- `report.as_bytes()` (zerocopy `IntoBytes`): the `repr(C)` in-memory byte
image of the record, field by field in declaration order. -/
def RazerMessage.asBytes (m : RazerMessage) : List Nat :=
  [m.status, m.transaction_id] ++ u16le m.remaining_packets ++
    [m.protocol_type, m.data_size, m.command_class, m.command_id] ++
    m.arguments ++ [m.crc, m.reserved]

/-- `RazerMessageBuilder::calculate_crc`: running XOR, starting from 0, over
`report.iter().take(RAZER_REPORT_SIZE - 2).skip(2)` — the first 88 bytes of
the record with the leading two dropped. -/
def calculate_crc (report : RazerMessage) : Nat :=
  ((report.asBytes.take (RAZER_REPORT_SIZE - 2)).drop 2).foldl
    (fun crc byte => crc ^^^ byte) 0

/-- The `RazerMessageBuilder` struct from common.rs. -/
structure RazerMessageBuilder where
  transaction_id : Nat
  data_size : Nat
  command_class : Nat
  command_id : Nat
  arguments : List Nat
deriving DecidableEq, Repr

/-- `Default for RazerMessageBuilder`: all fields zero, arguments all-zero. -/
def RazerMessageBuilder.default : RazerMessageBuilder :=
  { transaction_id := 0
    data_size := 0
    command_class := 0
    command_id := 0
    arguments := List.replicate RAZER_REPORT_ARGUMENT_SIZE 0 }

/-- `RazerMessageBuilder::build`: populate the record with status, padding and
crc zeroed, then compute the crc of that record and store it. -/
def RazerMessageBuilder.build (self : RazerMessageBuilder) : RazerMessage :=
  let result : RazerMessage :=
    { status := 0x00
      transaction_id := self.transaction_id
      remaining_packets := 0x0000
      protocol_type := 0x00
      data_size := self.data_size
      command_class := self.command_class
      command_id := self.command_id
      arguments := self.arguments
      crc := 0x00
      reserved := 0x00 }
  { result with crc := calculate_crc result }

/-- `RazerMessageBuilder::with_transaction_id`. -/
def RazerMessageBuilder.with_transaction_id (self : RazerMessageBuilder)
    (transaction_id : Nat) : RazerMessageBuilder :=
  { self with transaction_id := transaction_id }

/-- The first 88 bytes of the record image are the 8 header bytes followed by
the 80 argument bytes; crc and reserved are beyond them. -/
theorem asBytes_take_88 (m : RazerMessage) (h : m.arguments.length = 80) :
    m.asBytes.take (RAZER_REPORT_SIZE - 2) =
      ([m.status, m.transaction_id] ++ u16le m.remaining_packets ++
        [m.protocol_type, m.data_size, m.command_class, m.command_id]) ++
        m.arguments := by
  simp only [RazerMessage.asBytes, RAZER_REPORT_SIZE, u16le]
  simp [List.take_append_eq_append_take, h]

theorem asBytes_length (m : RazerMessage) (h : m.arguments.length = 80) :
    m.asBytes.length = RAZER_REPORT_SIZE := by
  simp [RazerMessage.asBytes, u16le, h, RAZER_REPORT_SIZE]

/-- Claim C1: for every built message, the stored checksum byte equals the
running XOR of the record's bytes from offset 2 up to (but excluding) the
last two bytes of the 90-byte record — excluding the status byte, the
transaction-id byte, the crc byte and the reserved byte — and this checksum
is computed and stored on every build. -/
theorem built_crc_is_xor_of_range (b : RazerMessageBuilder)
    (h : b.arguments.length = 80) :
    (b.build).asBytes.length = RAZER_REPORT_SIZE ∧
    (b.build).crc =
      (((b.build).asBytes.take ((b.build).asBytes.length - 2)).drop 2).foldl
        (fun crc byte => crc ^^^ byte) 0 := by
  have harg : (b.build).arguments = b.arguments := rfl
  have hlen : (b.build).arguments.length = 80 := by rw [harg]; exact h
  refine ⟨asBytes_length _ hlen, ?_⟩
  rw [asBytes_length _ hlen]
  show calculate_crc _ = _
  rw [calculate_crc, asBytes_take_88 _ h, asBytes_take_88 _ hlen]
  rfl

theorem built_crc_is_xor_of_range_witness :
    (RazerMessageBuilder.default.build).asBytes.length = RAZER_REPORT_SIZE ∧
    (RazerMessageBuilder.default.build).crc =
      (((RazerMessageBuilder.default.build).asBytes.take
        ((RazerMessageBuilder.default.build).asBytes.length - 2)).drop 2).foldl
        (fun crc byte => crc ^^^ byte) 0 :=
  built_crc_is_xor_of_range RazerMessageBuilder.default (by rfl)

/-- The `Dpi` struct from common.rs (a pair of u16 values). -/
structure Dpi where
  x : Nat
  y : Nat
deriving DecidableEq, Repr

/-- The generic `clamp` helper from common.rs: `min(max(min_range, val), max_range)`.
The source is generic over `Ord`; every call site uses an unsigned integer. -/
def clamp (val min_range max_range : Nat) : Nat := min (max min_range val) max_range

/-- `VarStoreId` from common.rs. -/
inductive VarStoreId
  | NoStore
  | VarStore
deriving DecidableEq, Repr

/-- The `repr(u8)` discriminants of `VarStoreId` (`var_store as u8`). -/
def VarStoreId.toU8 : VarStoreId → Nat
  | .NoStore => 0x00
  | .VarStore => 0x01

/-- `encode_u16_as_bytes` from common.rs: big-endian byte pair. -/
def encode_u16_as_bytes (val : Nat) : List Nat :=
  [(val >>> 8) &&& 0xFF, val &&& 0xFF]

/-- `decode_u16_from_bytes` from common.rs: big-endian read of a two-byte
slice (`val[0]`, `val[1]`). -/
def decode_u16_from_bytes (val : List Nat) : Nat :=
  ((val.getD 0 0) <<< 8) ||| ((val.getD 1 0) &&& 0xFF)

/-- `RazerMessageBuilder::set_dpi`: class 0x04, id 0x05, data-size 0x07;
clamps both axes into [100, 35000] and writes them big-endian at argument
offsets 1-2 and 3-4, with the varstore byte at offset 0 and zeroes at 5-6. -/
def RazerMessageBuilder.set_dpi (var_store : VarStoreId) (dpi : Dpi) :
    RazerMessageBuilder :=
  let msg := { RazerMessageBuilder.default with
    data_size := 0x07, command_class := 0x04, command_id := 0x05 }
  let dpi_x := clamp dpi.x 100 35000
  let dpi_y := clamp dpi.y 100 35000
  { msg with arguments :=
      ((((((msg.arguments.set 0 var_store.toU8).set 1
        ((dpi_x >>> 8) &&& 0x00FF)).set 2
        (dpi_x &&& 0xFF)).set 3
        ((dpi_y >>> 8) &&& 0x00FF)).set 4
        (dpi_y &&& 0xFF)).set 5 0x00).set 6 0x00 }

/-- The pure decoding step of `get_dpi` in devices.rs: read big-endian x from
response argument bytes 1..=2 and y from bytes 3..=4. -/
def get_dpi_decode (args : List Nat) : Nat × Nat :=
  (decode_u16_from_bytes ((args.drop 1).take 2),
   decode_u16_from_bytes ((args.drop 3).take 2))

theorem clamp_bounds (v lo hi : Nat) (h : lo ≤ hi) :
    lo ≤ clamp v lo hi ∧ clamp v lo hi ≤ hi := by
  unfold clamp
  omega

theorem clamp_idem (v lo hi : Nat) :
    clamp (clamp v lo hi) lo hi = clamp v lo hi := by
  unfold clamp
  omega

/-- Decoding the big-endian byte pair of a u16 value recovers the value. -/
theorem decode_encode_u16 (d : Nat) (hd : d < 2 ^ 16) :
    decode_u16_from_bytes (encode_u16_as_bytes d) = d := by
  show (((d >>> 8) &&& 0xFF) <<< 8) ||| ((d &&& 0xFF) &&& 0xFF) = d
  have h255 : (0xFF : Nat) = 2 ^ 8 - 1 := by norm_num
  rw [h255]
  apply Nat.eq_of_testBit_eq
  intro i
  simp only [Nat.testBit_or, Nat.testBit_shiftLeft, Nat.testBit_and,
    Nat.testBit_shiftRight, Nat.testBit_two_pow_sub_one]
  rcases Nat.lt_or_ge i 8 with h8 | h8
  · simp [h8, Nat.not_le.mpr h8]
  · rcases Nat.lt_or_ge i 16 with h16 | h16
    · have hi : 8 + (i - 8) = i := by omega
      have hd8 : i - 8 < 8 := by omega
      simp [h8, hi, hd8, Nat.not_lt.mpr h8]
    · have hz : Nat.testBit d i = false :=
        Nat.testBit_lt_two_pow
          (lt_of_lt_of_le hd (Nat.pow_le_pow_right (by norm_num) h16))
      simp [hz, show ¬(i - 8 < 8) by omega, show ¬(i < 8) by omega]

/-- Claim C2: for every u16 pair (x, y), the set-dpi encoder transmits x and
y clamped into [100, 35000], written big-endian at argument offsets 1-2 and
3-4; decoding those bytes the way the get-dpi decoder does returns exactly
the clamped values, so encode-then-decode equals a single clamp (idempotent
after the first clamp). -/
theorem set_dpi_clamps_and_roundtrips (vs : VarStoreId) (x y : Nat)
    (hx : x < 2 ^ 16) (hy : y < 2 ^ 16) :
    ((RazerMessageBuilder.set_dpi vs ⟨x, y⟩).arguments.drop 1).take 2 =
        encode_u16_as_bytes (clamp x 100 35000) ∧
    ((RazerMessageBuilder.set_dpi vs ⟨x, y⟩).arguments.drop 3).take 2 =
        encode_u16_as_bytes (clamp y 100 35000) ∧
    get_dpi_decode (RazerMessageBuilder.set_dpi vs ⟨x, y⟩).arguments =
        (clamp x 100 35000, clamp y 100 35000) ∧
    (100 ≤ clamp x 100 35000 ∧ clamp x 100 35000 ≤ 35000) ∧
    (100 ≤ clamp y 100 35000 ∧ clamp y 100 35000 ≤ 35000) ∧
    clamp (clamp x 100 35000) 100 35000 = clamp x 100 35000 ∧
    clamp (clamp y 100 35000) 100 35000 = clamp y 100 35000 := by
  have hxc : clamp x 100 35000 < 2 ^ 16 :=
    lt_of_le_of_lt (clamp_bounds x 100 35000 (by norm_num)).2 (by norm_num)
  have hyc : clamp y 100 35000 < 2 ^ 16 :=
    lt_of_le_of_lt (clamp_bounds y 100 35000 (by norm_num)).2 (by norm_num)
  refine ⟨rfl, rfl, ?_, clamp_bounds x 100 35000 (by norm_num),
    clamp_bounds y 100 35000 (by norm_num), clamp_idem x 100 35000,
    clamp_idem y 100 35000⟩
  show (decode_u16_from_bytes (encode_u16_as_bytes (clamp x 100 35000)),
        decode_u16_from_bytes (encode_u16_as_bytes (clamp y 100 35000))) = _
  rw [decode_encode_u16 _ hxc, decode_encode_u16 _ hyc]

theorem set_dpi_clamps_and_roundtrips_witness :
    ((RazerMessageBuilder.set_dpi .NoStore ⟨40000, 50⟩).arguments.drop 1).take 2 =
        encode_u16_as_bytes (clamp 40000 100 35000) ∧
    ((RazerMessageBuilder.set_dpi .NoStore ⟨40000, 50⟩).arguments.drop 3).take 2 =
        encode_u16_as_bytes (clamp 50 100 35000) ∧
    get_dpi_decode (RazerMessageBuilder.set_dpi .NoStore ⟨40000, 50⟩).arguments =
        (clamp 40000 100 35000, clamp 50 100 35000) ∧
    (100 ≤ clamp 40000 100 35000 ∧ clamp 40000 100 35000 ≤ 35000) ∧
    (100 ≤ clamp 50 100 35000 ∧ clamp 50 100 35000 ≤ 35000) ∧
    clamp (clamp 40000 100 35000) 100 35000 = clamp 40000 100 35000 ∧
    clamp (clamp 50 100 35000) 100 35000 = clamp 50 100 35000 :=
  set_dpi_clamps_and_roundtrips .NoStore 40000 50 (by norm_num) (by norm_num)

/-- The `DpiStages` struct from common.rs: an active stage index (1-indexed)
and a vector of (x, y) DPI pairs. -/
structure DpiStages where
  active : Nat
  stages : List (Nat × Nat)
deriving DecidableEq, Repr

/-- `DpiStages::new` from common.rs: rejects an empty or longer-than-5 stage
list, then rejects an active index outside `1..=stages.len()`, otherwise
returns the record.  `active` is a u8 in the source; in the reachable second
check `stages.len() as u8` equals `stages.length` because the length is at
most 5 there. -/
def DpiStages.new (active : Nat) (stages : List (Nat × Nat)) :
    Except String DpiStages :=
  if stages.isEmpty ∨ stages.length > RAZER_MOUSE_MAX_DPI_STAGES then
    Except.error "DpiStages: Need 1 <= # of DPI stages <= 256"
  else if active < 1 ∨ active > stages.length then
    Except.error "DpiStages: Need 1 <= active stage <= # of stages"
  else
    Except.ok { active := active, stages := stages }

/-- Fuel-indexed body of `chunks_exact`: at each step, if at least `n`
elements remain (and `n > 0`), emit the next `n` as a chunk; a trailing
remainder shorter than `n` is discarded.  The fuel only bounds recursion
depth; `chunksExact` supplies enough for the whole list. -/
def chunksExactAux (n : Nat) : Nat → List α → List (List α)
  | 0, _ => []
  | fuel + 1, l =>
    if 0 < n ∧ n ≤ l.length then
      l.take n :: chunksExactAux n fuel (l.drop n)
    else []

/-- Rust's `slice::chunks_exact(n)`: successive disjoint chunks of exactly
`n` elements, discarding any shorter remainder. -/
def chunksExact (n : Nat) (l : List α) : List (List α) :=
  chunksExactAux n l.length l

/-- The pure decoding step of `get_dpi_stages` in devices.rs: active stage
from response argument byte 1, stage count from byte 2, then up to `count`
7-byte chunks starting at byte 3, each read big-endian at sub-offsets 1..=2
and 3..=4.  The result record is built directly, without `DpiStages::new`. -/
def get_dpi_stages_decode (args : List Nat) : DpiStages :=
  let active_stage := args.getD 1 0
  let num_stages := args.getD 2 0
  let result := ((chunksExact 0x07 (args.drop 3)).take num_stages).map
    (fun dpi_stage =>
      (decode_u16_from_bytes ((dpi_stage.drop 1).take 2),
       decode_u16_from_bytes ((dpi_stage.drop 3).take 2)))
  { active := active_stage, stages := result }

/-- The DpiStages invariant stated by the spec: 1 ≤ count ≤ 5 and
1 ≤ active ≤ count. -/
def DpiStagesInvariant (d : DpiStages) : Prop :=
  1 ≤ d.stages.length ∧ d.stages.length ≤ 5 ∧
    1 ≤ d.active ∧ d.active ≤ d.stages.length

instance (d : DpiStages) : Decidable (DpiStagesInvariant d) := by
  unfold DpiStagesInvariant
  infer_instance

/-- Claim C3 counterexample: decoding an all-zero get-dpi-stages response
produces a DpiStages value with zero stages and active = 0, violating the
invariant `1 ≤ count ≤ 5 ∧ 1 ≤ active ≤ count` — so not every DpiStages
value produced by the driver's operations satisfies the invariant. -/
theorem decoded_dpi_stages_can_violate_invariant :
    ¬ DpiStagesInvariant (get_dpi_stages_decode (List.replicate 80 0)) := by
  decide

/-- Claim C3 (amended): every DpiStages value constructed via
`DpiStages::new` satisfies the invariant 1 ≤ count ≤ 5 and
1 ≤ active ≤ count; the get-dpi-stages decoder builds the record without
validation and can return values outside the invariant. -/
theorem dpi_stages_new_satisfies_invariant (active : Nat)
    (stages : List (Nat × Nat)) (d : DpiStages)
    (h : DpiStages.new active stages = Except.ok d) :
    DpiStagesInvariant d := by
  unfold DpiStages.new at h
  split at h
  · exact absurd h (by simp)
  · split at h
    · exact absurd h (by simp)
    · rename_i h1 h2
      simp only [Except.ok.injEq] at h
      subst h
      simp only [not_or, not_lt, gt_iff_lt, not_le, List.isEmpty_iff,
        RAZER_MOUSE_MAX_DPI_STAGES] at h1 h2
      have hne : stages ≠ [] := h1.1
      have hlen : 1 ≤ stages.length := by
        cases hs : stages with
        | nil => exact absurd hs hne
        | cons a l => simp
      have h15 := h1.2
      show 1 ≤ stages.length ∧ stages.length ≤ 5 ∧ 1 ≤ active ∧
        active ≤ stages.length
      exact ⟨hlen, by omega, by omega, by omega⟩

theorem dpi_stages_new_satisfies_invariant_witness :
    DpiStagesInvariant ⟨1, [(800, 800)]⟩ :=
  dpi_stages_new_satisfies_invariant 1 [(800, 800)] ⟨1, [(800, 800)]⟩ (by rfl)

/-- Claim C7: `DpiStages::new(active, stages)` errors exactly when the stage
count is 0 or exceeds 5, or active is 0 or exceeds the count; in particular
it rejects count=0, count=6, active=0 and active=count+1, and accepts
count=1 and count=5 with active at each valid boundary. -/
theorem dpi_stages_new_error_characterization :
    (∀ (active : Nat) (stages : List (Nat × Nat)), active < 256 →
      ((DpiStages.new active stages).isOk = false ↔
        (stages.length = 0 ∨ stages.length > 5 ∨ active = 0 ∨
          active > stages.length))) ∧
    (DpiStages.new 1 []).isOk = false ∧
    (DpiStages.new 1 [(1, 1), (2, 2), (3, 3), (4, 4), (5, 5), (6, 6)]).isOk
      = false ∧
    (DpiStages.new 0 [(800, 800)]).isOk = false ∧
    (DpiStages.new 2 [(800, 800)]).isOk = false ∧
    (DpiStages.new 1 [(800, 800)]).isOk = true ∧
    (DpiStages.new 1 [(1, 1), (2, 2), (3, 3), (4, 4), (5, 5)]).isOk = true ∧
    (DpiStages.new 5 [(1, 1), (2, 2), (3, 3), (4, 4), (5, 5)]).isOk = true := by
  refine ⟨?_, by decide, by decide, by decide, by decide, by decide, by decide,
    by decide⟩
  intro active stages _
  unfold DpiStages.new
  split
  · rename_i h1
    simp only [List.isEmpty_iff, gt_iff_lt, RAZER_MOUSE_MAX_DPI_STAGES] at h1
    have hr : stages.length = 0 ∨ stages.length > 5 ∨ active = 0 ∨
        active > stages.length := by
      rcases h1 with h | h
      · left; simp [h]
      · right; left; omega
    simp only [Except.isOk, Except.toBool]
    constructor
    · intro _
      exact hr
    · intro _
      trivial
  · split
    · rename_i h1 h2
      have hr : stages.length = 0 ∨ stages.length > 5 ∨ active = 0 ∨
          active > stages.length := by
        rcases h2 with h | h
        · right; right; left; omega
        · right; right; right; omega
      simp only [Except.isOk, Except.toBool]
      constructor
      · intro _
        exact hr
      · intro _
        trivial
    · rename_i h1 h2
      simp only [List.isEmpty_iff, gt_iff_lt, not_or, not_lt,
        RAZER_MOUSE_MAX_DPI_STAGES] at h1 h2
      have hne : stages.length ≠ 0 := by
        intro hlen
        exact h1.1 (List.eq_nil_of_length_eq_zero hlen)
      have h15 := h1.2
      have hr : ¬(stages.length = 0 ∨ stages.length > 5 ∨ active = 0 ∨
          active > stages.length) := by omega
      simp only [Except.isOk, Except.toBool]
      constructor
      · intro h
        exact absurd h (by simp)
      · intro h
        exact absurd h hr

theorem dpi_stages_new_error_characterization_witness :
    (DpiStages.new 3 [(800, 800)]).isOk = false ↔
      (([((800 : Nat), (800 : Nat))].length = 0) ∨
        ([((800 : Nat), (800 : Nat))].length > 5) ∨ (3 : Nat) = 0 ∨
        3 > [((800 : Nat), (800 : Nat))].length) :=
  dpi_stages_new_error_characterization.1 3 [(800, 800)] (by decide)

/-- `NormalPollingRate` from common.rs. -/
inductive NormalPollingRate
  | Rate1000
  | Rate500
  | Rate125
deriving DecidableEq, Repr

/-- `ExtendedPollingRate` from common.rs. -/
inductive ExtendedPollingRate
  | Rate8000
  | Rate4000
  | Rate2000
  | Rate1000
  | Rate500
  | Rate250
  | Rate125
deriving DecidableEq, Repr

/-- `PollingRate` from common.rs: tagged Normal or Extended. -/
inductive PollingRate
  | Normal (r : NormalPollingRate)
  | Extended (r : ExtendedPollingRate)
deriving DecidableEq, Repr

/-- `From<NormalPollingRate> for u16`. -/
def NormalPollingRate.toU16 : NormalPollingRate → Nat
  | .Rate1000 => 1000
  | .Rate500 => 500
  | .Rate125 => 125

/-- `RazerMessageBuilder::set_polling_rate`: class 0x00, id 0x05, data-size
0x01; argument byte 0 is 0x01 for 1000 Hz, 0x02 for 500 Hz, 0x08 for 125 Hz. -/
def RazerMessageBuilder.set_polling_rate (polling_rate : NormalPollingRate) :
    RazerMessageBuilder :=
  let msg := { RazerMessageBuilder.default with
    data_size := 0x01, command_class := 0x00, command_id := 0x05 }
  let rate_byte : Nat :=
    match polling_rate with
    | .Rate1000 => 0x01
    | .Rate500 => 0x02
    | .Rate125 => 0x08
  { msg with arguments := msg.arguments.set 0 rate_byte }

/-- The pure decoding step of `get_polling_rate` in devices.rs: match on
response argument byte 0, mapping 0x01/0x02/0x08 to 1000/500/125 and
anything else to a decode failure. -/
def get_polling_rate_decode (args : List Nat) : Except String Nat :=
  match args.getD 0 0 with
  | 0x01 => Except.ok 1000
  | 0x02 => Except.ok 500
  | 0x08 => Except.ok 125
  | _ => Except.error "Invalid polling rate response"

/-- The free function `set_polling_rate` in devices.rs, used by every device
profile that declares only the Normal polling-rate kind (the sole registered
profile, DeathadderV2ProWireless 0x007D, maps its `set_polling_rate`
capability to it).  An `ok` result carries the message handed to
`send_razer_message`; an `error` result short-circuits before any transport
call is made. -/
def Devices.set_polling_rate (polling_rate : PollingRate)
    (transaction_id : Nat) : Except String RazerMessage :=
  match polling_rate with
  | .Normal r =>
    Except.ok
      (((RazerMessageBuilder.set_polling_rate r).with_transaction_id
        transaction_id).build)
  | .Extended _ =>
    Except.error "Trying to use ExtendedPollingRate on a NormalPollingRate device."

/-- Claim C4: for every Extended polling-rate value (and any transaction id),
the Normal-only set-polling-rate operation returns the validation error and
produces no message for the transport — the `ok` constructor is the only
path that reaches `send_razer_message`. -/
theorem set_polling_rate_rejects_extended (r : ExtendedPollingRate)
    (transaction_id : Nat) :
    Devices.set_polling_rate (PollingRate.Extended r) transaction_id =
      Except.error
        "Trying to use ExtendedPollingRate on a NormalPollingRate device." ∧
    ∀ msg : RazerMessage,
      Devices.set_polling_rate (PollingRate.Extended r) transaction_id ≠
        Except.ok msg := by
  refine ⟨rfl, ?_⟩
  intro msg h
  exact absurd h (by simp [Devices.set_polling_rate])

theorem set_polling_rate_rejects_extended_witness :
    Devices.set_polling_rate (PollingRate.Extended .Rate8000) 0x3F =
      Except.error
        "Trying to use ExtendedPollingRate on a NormalPollingRate device." :=
  (set_polling_rate_rejects_extended .Rate8000 0x3F).1

/-- Claim C5: the Normal polling-rate numeric mapping round-trips — the
encoder writes 1000→0x01, 500→0x02, 125→0x08 as argument byte 0, the decoder
maps byte 0 back through 0x01→1000, 0x02→500, 0x08→125, so decoding a built
set-polling-rate message's argument buffer recovers the rate for every
declared Normal rate; and every response byte 0 outside {0x01, 0x02, 0x08}
is a decode failure. -/
theorem polling_rate_roundtrip :
    (∀ r : NormalPollingRate,
      get_polling_rate_decode
          ((RazerMessageBuilder.set_polling_rate r).build).arguments =
        Except.ok r.toU16) ∧
    ((RazerMessageBuilder.set_polling_rate .Rate1000).build).arguments.getD 0 0
      = 0x01 ∧
    ((RazerMessageBuilder.set_polling_rate .Rate500).build).arguments.getD 0 0
      = 0x02 ∧
    ((RazerMessageBuilder.set_polling_rate .Rate125).build).arguments.getD 0 0
      = 0x08 ∧
    (∀ args : List Nat,
      args.getD 0 0 ≠ 0x01 → args.getD 0 0 ≠ 0x02 → args.getD 0 0 ≠ 0x08 →
        get_polling_rate_decode args =
          Except.error "Invalid polling rate response") := by
  refine ⟨?_, rfl, rfl, rfl, ?_⟩
  · intro r
    cases r <;> rfl
  · intro args h1 h2 h8
    unfold get_polling_rate_decode
    split
    · rename_i h; exact absurd h h1
    · rename_i h; exact absurd h h2
    · rename_i h; exact absurd h h8
    · rfl

theorem polling_rate_roundtrip_witness :
    get_polling_rate_decode [0x03] =
      Except.error "Invalid polling rate response" :=
  polling_rate_roundtrip.2.2.2.2 [0x03] (by decide) (by decide) (by decide)

/-- The `Color` struct from chroma.rs. -/
structure Color where
  r : Nat
  g : Nat
  b : Nat
deriving DecidableEq, Repr

/-- `BreathingEffect` from chroma.rs. -/
inductive BreathingEffect
  | Single (c : Color)
  | Dual (c : Color) (c1 : Color)
  | Random
deriving DecidableEq, Repr

/-- `ExtendedMatrixEffect` from chroma.rs. -/
inductive ExtendedMatrixEffect
  | None
  | Static (c : Color)
  | Breathing (e : BreathingEffect)
  | Spectrum
  | Reactive (c : Color) (speed : Nat)
deriving DecidableEq, Repr

/-- `From<ExtendedMatrixEffect> for u8` from chroma.rs. -/
def ExtendedMatrixEffect.toU8 : ExtendedMatrixEffect → Nat
  | .None => 0x00
  | .Static _ => 0x01
  | .Breathing _ => 0x02
  | .Spectrum => 0x03
  | .Reactive _ _ => 0x05

/-- `LedId` from chroma.rs (only the Logo variant is live). -/
inductive LedId
  | Logo
deriving DecidableEq, Repr

/-- The `repr(u8)` discriminant of `LedId` (`led_id as u8`). -/
def LedId.toU8 : LedId → Nat
  | .Logo => 0x04

/-- Rust's `slice[start..start+payload.len()].copy_from_slice(payload)`:
overwrite the elements starting at `start` with the payload. -/
def copyFromSlice (l : List α) (start : Nat) (payload : List α) : List α :=
  l.take start ++ payload ++ l.drop (start + payload.length)

/-- `RazerMessageBuilder::chroma_extended_matrix_effect`: class 0x0F,
id 0x02; argument byte 0 is the varstore, byte 1 the led id, byte 2 the
effect code; the payload and data-size vary by effect exactly as in the
source `match`. -/
def RazerMessageBuilder.chroma_extended_matrix_effect (var_store : VarStoreId)
    (led_id : LedId) (effect : ExtendedMatrixEffect) : RazerMessageBuilder :=
  let msg := { RazerMessageBuilder.default with
    command_class := 0x0F, command_id := 0x02 }
  let args :=
    ((msg.arguments.set 0 var_store.toU8).set 1 led_id.toU8).set 2 effect.toU8
  let msg := { msg with arguments := args }
  match effect with
  | .None | .Spectrum => { msg with data_size := 0x06 }
  | .Static color =>
    let payload := [0x01, color.r, color.g, color.b]
    { msg with
      arguments := copyFromSlice msg.arguments 5 payload,
      data_size := 0x09 }
  | .Breathing e =>
    match e with
    | .Single color =>
      let payload := [0x01, 0x00, 0x01, color.r, color.g, color.b]
      { msg with
        arguments := copyFromSlice msg.arguments 3 payload,
        data_size := 0x09 }
    | .Dual color color1 =>
      let payload := [0x02, 0x00, 0x02, color.r, color.g, color.b,
        color1.r, color1.g, color1.b]
      { msg with
        arguments := copyFromSlice msg.arguments 3 payload,
        data_size := 0x0C }
    | .Random => { msg with data_size := 0x06 }
  | .Reactive color speed =>
    let speed := clamp speed 0x01 0x04
    let payload := [speed, 0x01, color.r, color.g, color.b]
    { msg with
      arguments := copyFromSlice msg.arguments 4 payload,
      data_size := 0x09 }

/-- Claim C6: the lighting-effect encoder produces exactly the specified
payload layout and data-size for every effect: Off (None), Spectrum and
Breathing/Random carry no color payload (every argument byte past offset 2
is zero) with data-size 0x06; Static writes [0x01, r, g, b] at offset 5 with
data-size 0x09; Breathing/Single writes [0x01, 0x00, 0x01, r, g, b] at
offset 3 with data-size 0x09; Breathing/Dual writes
[0x02, 0x00, 0x02, r1, g1, b1, r2, g2, b2] at offset 3 with data-size 0x0C;
Reactive writes [clamp speed 1 4, 0x01, r, g, b] at offset 4 with data-size
0x09, and the clamp sends 0 to 1 and 9 to 4. -/
theorem chroma_effect_layout (vs : VarStoreId) (led : LedId) (c c1 : Color)
    (speed : Nat) :
    ((RazerMessageBuilder.chroma_extended_matrix_effect vs led .None).data_size
        = 0x06 ∧
      (RazerMessageBuilder.chroma_extended_matrix_effect vs led
        .None).arguments.drop 3 = List.replicate 77 0) ∧
    ((RazerMessageBuilder.chroma_extended_matrix_effect vs led
        .Spectrum).data_size = 0x06 ∧
      (RazerMessageBuilder.chroma_extended_matrix_effect vs led
        .Spectrum).arguments.drop 3 = List.replicate 77 0) ∧
    ((RazerMessageBuilder.chroma_extended_matrix_effect vs led
        (.Breathing .Random)).data_size = 0x06 ∧
      (RazerMessageBuilder.chroma_extended_matrix_effect vs led
        (.Breathing .Random)).arguments.drop 3 = List.replicate 77 0) ∧
    ((RazerMessageBuilder.chroma_extended_matrix_effect vs led
        (.Static c)).data_size = 0x09 ∧
      ((RazerMessageBuilder.chroma_extended_matrix_effect vs led
        (.Static c)).arguments.drop 5).take 4 = [0x01, c.r, c.g, c.b]) ∧
    ((RazerMessageBuilder.chroma_extended_matrix_effect vs led
        (.Breathing (.Single c))).data_size = 0x09 ∧
      ((RazerMessageBuilder.chroma_extended_matrix_effect vs led
        (.Breathing (.Single c))).arguments.drop 3).take 6 =
          [0x01, 0x00, 0x01, c.r, c.g, c.b]) ∧
    ((RazerMessageBuilder.chroma_extended_matrix_effect vs led
        (.Breathing (.Dual c c1))).data_size = 0x0C ∧
      ((RazerMessageBuilder.chroma_extended_matrix_effect vs led
        (.Breathing (.Dual c c1))).arguments.drop 3).take 9 =
          [0x02, 0x00, 0x02, c.r, c.g, c.b, c1.r, c1.g, c1.b]) ∧
    ((RazerMessageBuilder.chroma_extended_matrix_effect vs led
        (.Reactive c speed)).data_size = 0x09 ∧
      ((RazerMessageBuilder.chroma_extended_matrix_effect vs led
        (.Reactive c speed)).arguments.drop 4).take 5 =
          [clamp speed 0x01 0x04, 0x01, c.r, c.g, c.b]) ∧
    clamp 0 0x01 0x04 = 1 ∧ clamp 9 0x01 0x04 = 4 :=
  ⟨⟨rfl, rfl⟩, ⟨rfl, rfl⟩, ⟨rfl, rfl⟩, ⟨rfl, rfl⟩, ⟨rfl, rfl⟩, ⟨rfl, rfl⟩,
    ⟨rfl, rfl⟩, rfl, rfl⟩

/-- The `DeviceInfo` snapshot struct from batched.rs.  The f32 battery
percentage is represented by the raw response byte it is computed from; only
presence/absence of the field matters to the claims below. -/
structure DeviceInfo where
  dpi : Option (Nat × Nat)
  dpi_range : Nat × Nat
  dpi_stages : Option DpiStages
  polling_rate : Option Nat
  battery_level : Option Nat
  charging_status : Option Bool
deriving DecidableEq, Repr

/-- The default body every `FeatureSet` trait method has in devices.rs for a
profile that does not declare the operation: `Err(anyhow!("Unimplemented"))`. -/
def featureUnimplemented {α : Type} : Except String α :=
  Except.error "Unimplemented"

/-- `BatchedFeatureSet::get_batched` from batched.rs, with the six underlying
queries abstracted as their outcomes (each `self.get_*()` call is a transport
round trip; `dpi_range` is profile-declared and infallible).  The source
converts every outcome with `.ok()` and always returns a `DeviceInfo`;
no combination of failures makes the call itself fail. -/
def get_batched (dpi : Except String (Nat × Nat)) (dpi_range : Nat × Nat)
    (dpi_stages : Except String DpiStages) (polling_rate : Except String Nat)
    (battery_level : Except String Nat)
    (charging_status : Except String Bool) : DeviceInfo :=
  { dpi := dpi.toOption
    dpi_range := dpi_range
    dpi_stages := dpi_stages.toOption
    polling_rate := polling_rate.toOption
    battery_level := battery_level.toOption
    charging_status := charging_status.toOption }

/-- Claim C8: for every combination of per-field query outcomes, the batched
snapshot read returns a snapshot (it is total — it never fails as a whole),
in which each field is present exactly when its query succeeded: any single
failure, including the Unimplemented error of an undeclared capability, only
degrades its own field to absent. -/
theorem get_batched_isolates_failures (dpi : Except String (Nat × Nat))
    (dpi_range : Nat × Nat) (dpi_stages : Except String DpiStages)
    (polling_rate : Except String Nat) (battery_level : Except String Nat)
    (charging_status : Except String Bool) :
    (get_batched dpi dpi_range dpi_stages polling_rate battery_level
        charging_status).dpi.isSome = dpi.isOk ∧
    (get_batched dpi dpi_range dpi_stages polling_rate battery_level
        charging_status).dpi_range = dpi_range ∧
    (get_batched dpi dpi_range dpi_stages polling_rate battery_level
        charging_status).dpi_stages.isSome = dpi_stages.isOk ∧
    (get_batched dpi dpi_range dpi_stages polling_rate battery_level
        charging_status).polling_rate.isSome = polling_rate.isOk ∧
    (get_batched dpi dpi_range dpi_stages polling_rate battery_level
        charging_status).battery_level.isSome = battery_level.isOk ∧
    (get_batched dpi dpi_range dpi_stages polling_rate battery_level
        charging_status).charging_status.isSome = charging_status.isOk ∧
    (get_batched dpi dpi_range dpi_stages polling_rate battery_level
        (featureUnimplemented (α := Bool))).charging_status = none := by
  refine ⟨?_, rfl, ?_, ?_, ?_, ?_, rfl⟩ <;>
    first
      | (cases dpi <;> rfl)
      | (cases dpi_stages <;> rfl)
      | (cases polling_rate <;> rfl)
      | (cases battery_level <;> rfl)
      | (cases charging_status <;> rfl)

/-- The byte sequence of an ASCII string, for feeding the byte-level model of
`Color::from_str` concrete inputs. -/
def strBytes (s : String) : List Nat := s.data.map Char.toNat

/-- Rust's `&s[lo..hi]` on a string slice, at byte level: returns the bytes
when the range is within bounds, and `none` where Rust raises a slicing
panic.  (Char-boundary panics on multi-byte text are outside this model;
every input considered here is ASCII.) -/
def strSliceBytes (s : List Nat) (lo hi : Nat) : Option (List Nat) :=
  if lo ≤ hi ∧ hi ≤ s.length then some ((s.drop lo).take (hi - lo)) else none

/-- Numeric value of one hex digit byte, as accepted by
`u8::from_str_radix(_, 16)`. -/
def hexDigitVal (c : Nat) : Option Nat :=
  if 0x30 ≤ c ∧ c ≤ 0x39 then some (c - 0x30)
  else if 0x61 ≤ c ∧ c ≤ 0x66 then some (c - 0x61 + 10)
  else if 0x41 ≤ c ∧ c ≤ 0x46 then some (c - 0x41 + 10)
  else none

/-- Rust std `u8::from_str_radix(s, 16)` on a byte string: an optional
leading `+`, then at least one hex digit; errors on empty digit text, an
invalid digit, or overflow past u8.  (A leading `-` also errors for the
nonzero values relevant here.)  The source maps the error to `()`. -/
def u8_from_str_radix_16 (s : List Nat) : Except Unit Nat :=
  let digits := if s.getD 0 0 = 0x2B then s.drop 1 else s
  if digits.isEmpty then Except.error ()
  else
    let step : Option Nat → Nat → Option Nat := fun acc c =>
      match acc, hexDigitVal c with
      | some a, some d => if a * 16 + d < 256 then some (a * 16 + d) else none
      | _, _ => none
    match digits.foldl step (some 0) with
    | some v => Except.ok v
    | none => Except.error ()

/-- `Color::from_str` from chroma.rs, at byte level: slice bytes 1..3, parse
as hex (early-returning `Err` via `?`), then bytes 3..5, then 5..7.  The
outer `Option` is `none` exactly where the Rust code panics: each
`&hex_code[lo..hi]` slice is taken before its parse, and a slice whose upper
bound exceeds the string length panics instead of returning an error. -/
def color_from_str (hex_code : List Nat) : Option (Except Unit Color) :=
  match strSliceBytes hex_code 1 3 with
  | none => none
  | some rs =>
    match u8_from_str_radix_16 rs with
    | Except.error e => some (Except.error e)
    | Except.ok r =>
      match strSliceBytes hex_code 3 5 with
      | none => none
      | some gs =>
        match u8_from_str_radix_16 gs with
        | Except.error e => some (Except.error e)
        | Except.ok g =>
          match strSliceBytes hex_code 5 7 with
          | none => none
          | some bs =>
            match u8_from_str_radix_16 bs with
            | Except.error e => some (Except.error e)
            | Except.ok b => some (Except.ok { r := r, g := g, b := b })

/-- Claim C9: `Color::from_str` is NOT total on malformed input — the spec
says every malformed input (including strings shorter than 7 characters)
yields a validation error, but the code indexes `&hex_code[1..3]`,
`[3..5]`, `[5..7]` unchecked, so short inputs hit a string-slice panic
(modelled as `none`) instead of returning `Err`: the empty string and
`"#12"` both panic, while a well-formed 7-character `#RRGGBB` string does
parse to `Ok`. -/
theorem color_from_str_panics_on_short_input :
    color_from_str (strBytes "") = none ∧
    color_from_str (strBytes "#12") = none ∧
    color_from_str (strBytes "#0cff1d") =
      some (Except.ok { r := 0x0c, g := 0xff, b := 0x1d }) := by
  refine ⟨rfl, rfl, rfl⟩

/-- `From<(u8, u8, u8)> for Color` from chroma.rs: every channel is set from
`value.0`, the first tuple component. -/
def Color.fromTuple (value : Nat × Nat × Nat) : Color :=
  { r := value.1
    g := value.1
    b := value.1 }

/-- Claim C10: for every byte triple (r, g, b), the tuple conversion yields a
Color whose red, green and blue channels all equal the first component r;
the supplied g and b components are ignored (changing them never changes the
result). -/
theorem color_from_tuple_uses_first_component (r g b : Nat) :
    (Color.fromTuple (r, g, b)).r = r ∧
    (Color.fromTuple (r, g, b)).g = r ∧
    (Color.fromTuple (r, g, b)).b = r ∧
    ∀ g' b' : Nat, Color.fromTuple (r, g, b) = Color.fromTuple (r, g', b') :=
  ⟨rfl, rfl, rfl, fun _ _ => rfl⟩

end Ruzer
